import Mathlib

set_option maxRecDepth 16384

/-!
Shallow embedding of the Texecom Connect protocol engine
(texecomConnect.py, texecomDefines.py, area.py, zone.py).

Machine bytes are modelled as Nat with explicit masks (x % 256, x &&& 0xF)
exactly where the Python code masks; Python dict lookups that can raise
KeyError are modelled as Option/Except; list indexing that can raise
IndexError is modelled as Except.  Logging and string formatting are not
load-bearing for any statement below and are elided; where a branch's only
effect is a log line we record the branch outcome instead.
-/

namespace Texecom

/-! ### Constants from texecomDefines.py -/

def LENGTH_HEADER : Nat := 4

def CMD_TIMEOUT : Nat := 2

def CMD_RETRIES : Nat := 3

def AREA_STATE_DISARMED : Nat := 0

def AREA_STATE_ARMED : Nat := 3

def AREA_STATE_PARTARMED : Nat := 4

/-- Message-type bytes of the unsolicited messages (bytes([0]) up to
bytes([5])). -/
def MSG_DEBUG : Nat := 0

def MSG_ZONEEVENT : Nat := 1

def MSG_AREAEVENT : Nat := 2

def MSG_OUTPUTEVENT : Nat := 3

def MSG_USEREVENT : Nat := 4

def MSG_LOGEVENT : Nat := 5

/-! ### Panel shape derivation (get_number_zones, texecomConnect.py:458-480)

The Python code looks the zone count up in four dicts (raising KeyError on
an unknown count, modelled as Option) and computes
zoneBitmapSize = int(numberOfZones / 8), i.e. truncating division. -/

structure PanelShape where
  numberOfUsers : Nat
  numberOfAreas : Nat
  areaBitmapSize : Nat
  zoneBitmapSize : Nat
  zoneNumSize : Nat
deriving DecidableEq, Repr

def zone2NumberOfUsers : Nat → Option Nat
  | 12 => some 8
  | 24 => some 25
  | 48 => some 50
  | 64 => some 50
  | 88 => some 100
  | 168 => some 200
  | 640 => some 1000
  | _ => none

def zone2NumberOfAreas : Nat → Option Nat
  | 12 => some 2
  | 24 => some 2
  | 48 => some 4
  | 64 => some 4
  | 88 => some 8
  | 168 => some 16
  | 640 => some 64
  | _ => none

def zone2AreaBitmapSize : Nat → Option Nat
  | 12 => some 1
  | 24 => some 1
  | 48 => some 1
  | 64 => some 1
  | 88 => some 1
  | 168 => some 2
  | 640 => some 8
  | _ => none

def zone2ZoneNumSize : Nat → Option Nat
  | 12 => some 1
  | 24 => some 1
  | 48 => some 1
  | 64 => some 1
  | 88 => some 1
  | 168 => some 1
  | 640 => some 2
  | _ => none

/-- Size derivation of get_number_zones: the four dict lookups plus
zoneBitmapSize = int(numberOfZones / 8) (truncating). -/
def get_number_zones_shape (numberOfZones : Nat) : Option PanelShape :=
  match zone2NumberOfUsers numberOfZones, zone2NumberOfAreas numberOfZones,
        zone2AreaBitmapSize numberOfZones, zone2ZoneNumSize numberOfZones with
  | some u, some a, some ab, some zn =>
      some ⟨u, a, ab, numberOfZones / 8, zn⟩
  | _, _, _, _ => none

/-- Modelled from the spec: the panel-shape table of spec.md section 3
(rows: zone count, users, areas, areaBitmap bytes, zoneBitmap bytes,
zoneNum bytes), for refinement comparison against get_number_zones_shape. -/
def specShapeTable : Nat → Option PanelShape
  | 12 => some ⟨8, 2, 1, 2, 1⟩
  | 24 => some ⟨25, 2, 1, 3, 1⟩
  | 48 => some ⟨50, 4, 1, 6, 1⟩
  | 64 => some ⟨50, 4, 1, 8, 1⟩
  | 88 => some ⟨100, 8, 1, 11, 1⟩
  | 168 => some ⟨200, 16, 2, 21, 1⟩
  | 640 => some ⟨1000, 64, 8, 80, 2⟩
  | _ => none

/-! ### BCD decoding (bcdDecodeBytes, texecomConnect.py:1114-1121) -/

/-- bcdDecodeBytes: for each byte, high nibble then low nibble; a nibble is
appended (as its decimal string) exactly when it is at most 9. -/
def bcdDecodeBytes (bcd : List Nat) : String :=
  bcd.foldl
    (fun result c =>
      [c >>> 4, c &&& 0xF].foldl
        (fun r v => if v ≤ 9 then r ++ toString v else r) result)
    ""

/-- The nibble stream of a byte string: high nibble before low nibble,
byte by byte. -/
def nibbleStream : List Nat → List Nat
  | [] => []
  | c :: rest => c >>> 4 :: (c &&& 0xF) :: nibbleStream rest

/-- Modelled from the spec: digits greater than 9 terminate the sequence,
so decoding keeps only the nibbles before the first nibble above 9. -/
def bcdDecodeSpec (bcd : List Nat) : String :=
  ((nibbleStream bcd).takeWhile (fun v => v ≤ 9)).foldl
    (fun r v => r ++ toString v) ""

/-- Decoding that skips every nibble above 9 (used to characterise the
code's actual behaviour). -/
def bcdDecodeFilter (bcd : List Nat) : String :=
  ((nibbleStream bcd).filter (fun v => v ≤ 9)).foldl
    (fun r v => r ++ toString v) ""

/-! ### GET_ZONE_STATE request encoding (get_zone_state, texecomConnect.py:96-100) -/

/-- The clamp at the top of get_zone_state: if numZones > 168: numZones = 168. -/
def get_zone_state_clamp (numZones : Nat) : Nat :=
  if numZones > 168 then 168 else numZones

/-- The request body bytes([startZone & 0xFF, numZones & 0xFF]) built by
get_zone_state after clamping. -/
def get_zone_state_body (startZone numZones : Nat) : List Nat :=
  [startZone % 256, get_zone_state_clamp numZones % 256]

/-- The (startZone, numZones) request that get_zone_state actually issues,
after its 168 clamp. -/
def get_zone_state_request (startZone numZones : Nat) : Nat × Nat :=
  (startZone, get_zone_state_clamp numZones)

/-- get_all_zones_state (texecomConnect.py:539-547) issues exactly one
get_zone_state request for the range 1..highestUsedZone; a count mismatch
in the reply is only logged. -/
def get_all_zones_state_requests (highestUsedZone : Nat) : List (Nat × Nat) :=
  [get_zone_state_request 1 highestUsedZone]

/-- A request (startZone, numZones) covers zone z when startZone ≤ z and
z < startZone + numZones (the zones whose state bytes the reply carries). -/
def requestCovers (req : Nat × Nat) (z : Nat) : Prop :=
  req.1 ≤ z ∧ z < req.1 + req.2

instance (req : Nat × Nat) (z : Nat) : Decidable (requestCovers req z) := by
  unfold requestCovers; exact inferInstance

/-! ### Armed-area-flag probe
(saveAreasCurrentArmedState, texecomConnect.py:582-606;
get_armed_area_state, texecomConnect.py:573-580)

Area state is modelled as the map from area number to its recorded state
(none = the area's state attribute is still None).  get_area creates an
area on demand with state None, so reading the map at a fresh number
yields none, exactly as the Python code observes.  The loop walks
areanumber = 1..numberOfAreas, testing flags & 1 and shifting flags right
once per area.  The returned list collects the (areanumber, newState)
pairs for which area.save_state ran and the area event callback fired. -/

def int_from_bytes_le (bs : List Nat) : Nat :=
  match bs with
  | [] => 0
  | b :: rest => b % 256 + 256 * int_from_bytes_le rest

/-- The newState computation of the loop body: a set low bit selects
areaStateWhenTrue; otherwise a still-unrecorded area reads as disarmed
and a recorded area keeps its state. -/
def saveAreasNewState (areaStateWhenTrue flags : Nat) (st : Option Nat) : Nat :=
  if flags % 2 = 1 then areaStateWhenTrue
  else match st with
    | none => AREA_STATE_DISARMED
    | some s => s

/-- The save condition of the loop body: the state changes, the area is
not recorded part-armed, and the new state is not the plain armed flag. -/
def saveAreasCond (st : Option Nat) (newState : Nat) : Prop :=
  st ≠ some newState ∧ st ≠ some AREA_STATE_PARTARMED ∧
    newState ≠ AREA_STATE_ARMED

instance (st : Option Nat) (newState : Nat) :
    Decidable (saveAreasCond st newState) := by
  unfold saveAreasCond; exact inferInstance

/-- The body of the for-loop of saveAreasCurrentArmedState, iterated from
area number a for count further areas. -/
def saveAreasFrom (areaStateWhenTrue : Nat) (a : Nat) (count : Nat)
    (flags : Nat) (states : Nat → Option Nat) :
    (Nat → Option Nat) × List (Nat × Nat) :=
  match count with
  | 0 => (states, [])
  | count + 1 =>
      let newState := saveAreasNewState areaStateWhenTrue flags (states a)
      if saveAreasCond (states a) newState then
        let states' := fun n => if n = a then some newState else states n
        let rest := saveAreasFrom areaStateWhenTrue (a + 1) count (flags / 2) states'
        (rest.1, (a, newState) :: rest.2)
      else
        saveAreasFrom areaStateWhenTrue (a + 1) count (flags / 2) states

/-- saveAreasCurrentArmedState over areas 1..numberOfAreas. -/
def saveAreasCurrentArmedState (numberOfAreas : Nat) (areaBitmap : List Nat)
    (areaStateWhenTrue : Nat) (states : Nat → Option Nat) :
    (Nat → Option Nat) × List (Nat × Nat) :=
  saveAreasFrom areaStateWhenTrue 1 numberOfAreas (int_from_bytes_le areaBitmap) states

/-- get_armed_area_state: passes area-flag row 21's bitmap to
saveAreasCurrentArmedState with AREA_STATE_ARMED. -/
def get_armed_area_state (numberOfAreas : Nat) (areaBitmap : List Nat)
    (states : Nat → Option Nat) : (Nat → Option Nat) × List (Nat × Nat) :=
  saveAreasCurrentArmedState numberOfAreas areaBitmap AREA_STATE_ARMED states

/-! ### Zone/area association (associateZoneWithAreas, texecomConnect.py:608-626)

Membership of the two mirrored dicts is modelled as Bool-valued maps:
zoneAreas z a holds when areanumber a is a key of zones[z].areas, and
areaZones a z when zone number z is a key of areas[a].zones. -/

structure Topology where
  zoneAreas : Nat → Nat → Bool
  areaZones : Nat → Nat → Bool

def emptyTopology : Topology :=
  ⟨fun _ _ => false, fun _ _ => false⟩

/-- The body of the for-loop of associateZoneWithAreas for zone z,
iterated from area number a for count further areas: a set bit inserts the
pair in both dicts, a clear bit deletes it from both. -/
def associateFrom (z : Nat) (a : Nat) (count : Nat) (flags : Nat)
    (t : Topology) : Topology :=
  match count with
  | 0 => t
  | count + 1 =>
      let b := flags % 2 = 1
      let t' : Topology :=
        { zoneAreas := fun z' a' =>
            if z' = z ∧ a' = a then decide b else t.zoneAreas z' a',
          areaZones := fun a' z' =>
            if a' = a ∧ z' = z then decide b else t.areaZones a' z' }
      associateFrom z (a + 1) count (flags / 2) t'

/-- associateZoneWithAreas over areas 1..numberOfAreas. -/
def associateZoneWithAreas (numberOfAreas : Nat) (z : Nat)
    (areaBitmap : List Nat) (t : Topology) : Topology :=
  associateFrom z 1 numberOfAreas (int_from_bytes_le areaBitmap) t

/-- The mirror invariant of the spec, scoped to areas 1..numberOfAreas:
a is in z's area set iff z is in a's zone set. -/
def Mirror (numberOfAreas : Nat) (t : Topology) : Prop :=
  ∀ a z, 1 ≤ a → a ≤ numberOfAreas → t.zoneAreas z a = t.areaZones a z

/-! ### Changed-zones polling (get_changed_zones_state, texecomConnect.py:549-571)

The inner while collects a run of set bits, capped at 168; it is written
with fuel 168 - numZonesInBlock, which matches the loop guard
numZonesInBlock < 168 exactly.  The outer while advances zoneNum by at
least one per iteration and stops once zoneNum exceeds highestUsedZone, so
fuel highestUsedZone + 1 (provided by get_changed_zones_state below) never
runs out before the loop's own exit conditions. -/

def collectBlockFuel : Nat → Nat → Nat → Nat × Nat
  | 0, flags, numInBlock => (numInBlock, flags)
  | fuel + 1, flags, numInBlock =>
      if flags % 2 = 1 ∧ numInBlock < 168 then
        collectBlockFuel fuel (flags / 2) (numInBlock + 1)
      else (numInBlock, flags)

/-- The inner while of get_changed_zones_state: consume a run of set bits
(at most 168 - numInBlock more), returning the run length and the
remaining flags. -/
def collectBlock (flags numInBlock : Nat) : Nat × Nat :=
  collectBlockFuel (168 - numInBlock) flags numInBlock

def changedLoopFuel : Nat → Nat → Nat → Nat → List (Nat × Nat)
  | 0, _, _, _ => []
  | fuel + 1, highest, zoneNum, flags =>
      if zoneNum ≤ highest then
        if flags % 2 = 0 then
          if flags = 0 then []
          else changedLoopFuel fuel highest (zoneNum + 1) (flags / 2)
        else
          let r := collectBlock flags 0
          (zoneNum, r.1) :: changedLoopFuel fuel highest (zoneNum + r.1) r.2
      else []

/-- The list of (startZoneNum, numZonesInBlock) zone-state requests that
get_changed_zones_state issues for a changed-zones bitmap. -/
def changedZoneRequests (highestUsedZone : Nat) (changedZonesBitmap : List Nat) :
    List (Nat × Nat) :=
  changedLoopFuel (highestUsedZone + 1) highestUsedZone 1
    (int_from_bytes_le changedZonesBitmap)

/-! ### In-memory zone/area model shared by the processing functions

zoneTypes is the zoneType attribute of each zone (Zone.__init__ starts it
at ZONETYPE_UNUSED = 0, and get_zone creates zones on demand, so a fresh
zone reads as 0); zoneStates / areaStates are the state attributes
(none = Python None). -/

structure PanelState where
  zoneTypes : Nat → Nat
  zoneStates : Nat → Option Nat
  areaStates : Nat → Option Nat

def initPanelState : PanelState :=
  ⟨fun _ => 0, fun _ => none, fun _ => none⟩

/-! ### Zone state processing (get_zone_state, texecomConnect.py:104-118)

The response-handling loop of get_zone_state: one state byte per zone
starting at startZone; a zone whose zoneType is ZONETYPE_UNUSED (0) is
skipped, and a zone whose recorded state already equals the new byte is
not re-saved.  Zone.save_state also derives text and the active/armed
flags from the byte; only the stored state matters here, and the
save_state list lookup is total (it indexes with state & 3 into a 4-entry
list), so no exception is modelled.  The returned list collects the zone
numbers for which the zone event callback fired. -/

def zoneStateLoop (z : Nat) (details : List Nat) (st : PanelState) :
    PanelState × List Nat :=
  match details with
  | [] => (st, [])
  | d :: rest =>
      if st.zoneTypes z ≠ 0 ∧ st.zoneStates z ≠ some d then
        let st' : PanelState :=
          { st with zoneStates := fun n => if n = z then some d else st.zoneStates n }
        let r := zoneStateLoop (z + 1) rest st'
        (r.1, z :: r.2)
      else
        zoneStateLoop (z + 1) rest st

/-- get_zone_state's handling of a reply of the right length: none when
len(details) differs from the clamped numZones (logged and dropped),
otherwise the loop above. -/
def get_zone_state_process (startZone numZones : Nat) (details : List Nat)
    (st : PanelState) : Option (PanelState × List Nat) :=
  if details.length = get_zone_state_clamp numZones then
    some (zoneStateLoop startZone details st)
  else none

/-! ### Zone details processing (get_zone_details, texecomConnect.py:129-159)

A reply of length 33 + areaBitmapSize assigns zoneType := details[0]; the
zone_types dict lookup raises KeyError above 21, and decoding the text
slice raises UnicodeDecodeError on a byte ≥ 128 (text cleanup itself is
elided as it only rewrites the text attribute).  The details callback
fires exactly when the newly assigned zoneType is not ZONETYPE_UNUSED.
Result: ok none for a wrong-length reply (logged, returns None), ok (some
(state, fired callbacks)) otherwise. -/

def get_zone_details_process (areaBitmapSize : Nat) (zone_number : Nat)
    (details : List Nat) (st : PanelState) :
    Except String (Option (PanelState × List Nat)) :=
  if details.length = 33 + areaBitmapSize then
    let zt := details.headD 0
    if 21 < zt then .error "KeyError: zone_types"
    else if ¬ (details.drop (areaBitmapSize + 1)).all (fun b => b < 128) then
      .error "UnicodeDecodeError"
    else
      let st' : PanelState :=
        { st with zoneTypes := fun n => if n = zone_number then zt else st.zoneTypes n }
      .ok (some (st', if zt ≠ 0 then [zone_number] else []))
  else .ok none

/-! ### Unsolicited-message dispatch (handle_event_message,
texecomConnect.py:689-820; Area.save_state, area.py:31-41)

The result records the new state, the zone numbers and area numbers for
which the zone/area event callbacks fired, and which branch ran; a Python
exception (IndexError from unguarded indexing, KeyError, or
UnicodeDecodeError from an ASCII decode) is the error case.  The
formatted log strings the function returns are elided; the branch tag
stands for them. -/

inductive DispatchBranch where
  | debugMsg
  | zoneEvent (zone_number : Nat)
  | areaEvent (area_number : Nat)
  | outputEvent
  | userEvent
  | logEvent
  | unknownZoneEventLength
  | unknownLogEventLength
  | unknownMessageType
deriving DecidableEq, Repr

structure DispatchResult where
  st : PanelState
  zoneCallbacks : List Nat
  areaCallbacks : List Nat
  branch : DispatchBranch

/-- Area.save_state: stores the state, then indexes the six-entry
state_text list with it — an IndexError for any state byte above 5. -/
def area_save_state (area_state : Nat) : Except String Nat :=
  if area_state < 6 then .ok area_state
  else .error "IndexError: area state_text"

/-- The ZONEEVENT body shared by the 2- and 3-byte payload forms:
zone.save_state runs and the zone event callback fires with no zoneType
check. -/
def zoneEventCase (zone_number zone_bitmap : Nat) (st : PanelState) :
    DispatchResult :=
  { st := { st with
      zoneStates := fun n => if n = zone_number then some zone_bitmap else st.zoneStates n },
    zoneCallbacks := [zone_number],
    areaCallbacks := [],
    branch := .zoneEvent zone_number }

def handle_event_message (st : PanelState) (payload : List Nat) :
    Except String DispatchResult :=
  match payload with
  | [] => .ok ⟨st, [], [], .unknownMessageType⟩
  | m :: rest =>
    if m = MSG_DEBUG then
      -- payload.decode("ascii") raises UnicodeDecodeError on a byte ≥ 128
      if rest.all (fun b => b < 128) then .ok ⟨st, [], [], .debugMsg⟩
      else .error "UnicodeDecodeError"
    else if m = MSG_ZONEEVENT then
      match rest with
      | [zn, zb] => .ok (zoneEventCase zn zb st)
      | [z0, z1, zb] => .ok (zoneEventCase (z0 + z1 * 256) zb st)
      | _ => .ok ⟨st, [], [], .unknownZoneEventLength⟩
    else if m = MSG_AREAEVENT then
      -- payload[0] and payload[1] are read unguarded: IndexError when short
      match rest with
      | a :: s :: _ =>
          match area_save_state s with
          | .ok s' =>
              .ok { st := { st with
                      areaStates := fun n => if n = a then some s' else st.areaStates n },
                    zoneCallbacks := [],
                    areaCallbacks := [a],
                    branch := .areaEvent a }
          | .error e => .error e
      | _ => .error "IndexError: area event payload"
    else if m = MSG_OUTPUTEVENT then
      -- the location-name lookup is fully guarded; only short payloads raise
      match rest with
      | _ :: _ :: _ => .ok ⟨st, [], [], .outputEvent⟩
      | _ => .error "IndexError: output event payload"
    else if m = MSG_USEREVENT then
      -- user_state indexes a 3-entry list unguarded
      match rest with
      | _ :: s :: _ =>
          if s < 3 then .ok ⟨st, [], [], .userEvent⟩
          else .error "IndexError: user state"
      | _ => .error "IndexError: user event payload"
    else if m = MSG_LOGEVENT then
      -- the 8-, 9- and 16-byte forms only read within bounds and use
      -- guarded dict lookups; other lengths are reported as unknown
      if rest.length = 8 ∨ rest.length = 9 ∨ rest.length = 16 then
        .ok ⟨st, [], [], .logEvent⟩
      else .ok ⟨st, [], [], .unknownLogEventLength⟩
    else .ok ⟨st, [], [], .unknownMessageType⟩

/-! ### CRC-8 (crcmod.mkCrcFun(poly=0x185, rev=False, initCrc=0xFF),
texecomConnect.py:42)

Non-reflected CRC-8 with polynomial 0x185 and initial register 0xFF:
each byte is xored into the register, then eight MSB-first shift steps
reduce modulo the polynomial (low byte 0x85). -/

def crc8Bits : Nat → Nat → Nat
  | crc, 0 => crc
  | crc, k + 1 =>
      crc8Bits (if 128 ≤ crc then ((crc * 2) ^^^ 0x85) % 256 else (crc * 2) % 256) k

def crc8_func (data : List Nat) : Nat :=
  data.foldl (fun crc b => crc8Bits ((crc ^^^ b % 256) % 256) 8) 0xFF

/-! ### Receiving frames (recvresponse, texecomConnect.py:908-1038)

recvProcessFrame is the per-frame part of recvresponse's loop, given the
bytes recv returned for the header (up to 4) and for the payload (up to
LEN - 4).  Outcomes: accept = return the response payload to sendcommand;
hardNone = return None (the +++ sentinels, EOF, a bad start byte, a CRC
mismatch, an unexpected command frame); swallow = continue the loop (short
header, short payload, a response with the wrong sequence number, a
duplicated message); message = dispatch the unsolicited message and
continue, recording the new last_received_seq.  The time-based parts of
the loop (the 2 s overall timeout re-raise, idle probes, heartbeats) are
real-time behaviour handled by the callers' scripts below. -/

inductive RecvStep where
  | accept (body : List Nat)
  | hardNone
  | swallow
  | message (body : List Nat) (newLastReceivedSeq : Int)
deriving Repr

def recvProcessFrame (lastSequence lastReceivedSeq : Int)
    (header payload : List Nat) : RecvStep :=
  if header = [43, 43, 43] then .hardNone
  else if header = [43, 43, 43, 65] then .hardNone
  else if header.length = 0 then .hardNone
  else if header.length < LENGTH_HEADER then .swallow
  else
    let msg_start := header.headD 0
    let msg_type := header.getD 1 0
    let msg_length := header.getD (header.length - 2) 0
    let msg_sequence := header.getD (header.length - 1) 0
    if msg_start ≠ 116 then .hardNone
    else
      let expected_len := msg_length - LENGTH_HEADER
      if payload.length < expected_len then .swallow
      else
        let body := payload.dropLast
        let msg_crc := (payload.getLast?).getD 0
        if msg_crc ≠ crc8_func (header ++ body) then .hardNone
        else if msg_type = 82 ∧ (msg_sequence : Int) ≠ lastSequence then .swallow
        else if msg_type = 77 ∧ lastReceivedSeq ≠ -1 ∧
            (msg_sequence : Int) = lastReceivedSeq then .swallow
        else if msg_type = 67 then .hardNone
        else if msg_type = 82 then .accept body
        else if msg_type = 77 then .message body (msg_sequence : Int)
        else .swallow

/-- What the socket yields on one recv round: a timeout, or a frame's
header and payload bytes. -/
inductive Incoming where
  | timeout
  | frame (header payload : List Nat)

/-- One call to recvresponse, driven by the script of incoming socket
data.  Running out of script means no further frame arrived within
CMD_TIMEOUT, i.e. socket.timeout propagates (outer none); some none is
recvresponse returning None; some (some body) is a returned response
payload.  The second component is the final last_received_seq. -/
def recvresponseModel (lastSequence : Int) :
    Int → List Incoming → Option (Option (List Nat)) × Int
  | lrs, [] => (none, lrs)
  | lrs, .timeout :: _ => (none, lrs)
  | lrs, .frame h p :: rest =>
      match recvProcessFrame lastSequence lrs h p with
      | .accept body => (some (some body), lrs)
      | .hardNone => (some none, lrs)
      | .swallow => recvresponseModel lastSequence lrs rest
      | .message _ newLrs => recvresponseModel lastSequence newLrs rest

/-- The frame sendcommandbody builds and stores in last_command
(texecomConnect.py:1084-1096): 't' 'C' LEN SEQ body CRC.  On a timeout
retry, sendcommand re-sends exactly this value. -/
def sendcommandbody_frame (seq : Nat) (body : List Nat) : List Nat :=
  let data := [116, 67, (body.length + 5) % 256, seq % 256] ++ body
  data ++ [crc8_func data]

/-- The retry loop of sendcommand (texecomConnect.py:1047-1060): up to
CMD_RETRIES calls to recvresponse, one script of incoming data per
attempt; a timeout re-sends last_command and retries, anything else
breaks with that response (even None). -/
def sendcommandAttempts (lastSequence : Int) :
    Nat → Int → List (List Incoming) → Option (List Nat)
  | 0, _, _ => none
  | retries + 1, lrs, scripts =>
      let r := recvresponseModel lastSequence lrs (scripts.headD [])
      match r.1 with
      | some response => response
      | none => sendcommandAttempts lastSequence retries r.2 scripts.tail

/-- sendcommand after the retry loop (texecomConnect.py:1062-1082): a None
response stays None; otherwise the first response byte must echo the
command id (the wrong-command and stale-login-NAK paths both return
None), and the rest is the returned payload. -/
def sendcommandModel (cmd : Nat) (lastSequence lastReceivedSeq : Int)
    (scripts : List (List Incoming)) : Option (List Nat) :=
  match sendcommandAttempts lastSequence CMD_RETRIES lastReceivedSeq scripts with
  | none => none
  | some response =>
      match response with
      | [] => none
      | c :: payload => if c = cmd then some payload else none

/-! ## Theorems -/

/-- C4 counterexample: for a 12-zone panel the code derives
zoneBitmapSize = int(12 / 8) = 1, while the spec's table row says 2, so
the claim fails at zone count 12. -/
theorem c4_counterexample :
    get_number_zones_shape 12 = some ⟨8, 2, 1, 1, 1⟩ ∧
    specShapeTable 12 = some ⟨8, 2, 1, 2, 1⟩ ∧
    get_number_zones_shape 12 ≠ specShapeTable 12 := by
  refine ⟨rfl, rfl, ?_⟩
  decide

/-- C4 (amended): size derivation matches the spec's table rows for the
zone counts 24, 48, 64, 88, 168 and 640; for 12 zones all values match
except zoneBitmapSize, which is the truncated 12 / 8 = 1 rather than 2. -/
theorem c4_shape_table :
    get_number_zones_shape 24 = specShapeTable 24 ∧
    get_number_zones_shape 48 = specShapeTable 48 ∧
    get_number_zones_shape 64 = specShapeTable 64 ∧
    get_number_zones_shape 88 = specShapeTable 88 ∧
    get_number_zones_shape 168 = specShapeTable 168 ∧
    get_number_zones_shape 640 = specShapeTable 640 ∧
    get_number_zones_shape 12 = some ⟨8, 2, 1, 12 / 8, 1⟩ := by
  decide

/-- C2 counterexample: with highestUsedZone = 200 the full-zone-state
query issues the single request (1, 168); zone 169 lies in the requested
range 1..200 but no issued request covers it, so the range is not split
into chunks that query every zone. -/
theorem c2_counterexample :
    get_all_zones_state_requests 200 = [(1, 168)] ∧
    ¬ requestCovers (1, 168) 169 := by
  exact ⟨rfl, by decide⟩

/-- C2 (amended): the full-zone-state query is a single GET_ZONE_STATE
request whose count is clamped at 168; every request's count is at most
168, and every zone of the range is queried exactly when the range does
not cross the 168 cap — when highestUsedZone exceeds 168, zones above 168
are covered by no issued request. -/
theorem c2_single_capped_request (h z : Nat) (hz1 : 1 ≤ z) (hzh : z ≤ h) :
    (∀ req ∈ get_all_zones_state_requests h, req.2 ≤ 168) ∧
    (h ≤ 168 → ∃ req ∈ get_all_zones_state_requests h, requestCovers req z) ∧
    (168 < h → 168 < z → ∀ req ∈ get_all_zones_state_requests h, ¬ requestCovers req z) := by
  unfold get_all_zones_state_requests get_zone_state_request get_zone_state_clamp
  refine ⟨?_, ?_, ?_⟩
  · intro req hreq
    simp only [List.mem_singleton] at hreq
    subst hreq
    split <;> omega
  · intro hle
    refine ⟨_, List.mem_singleton_self _, ?_⟩
    unfold requestCovers
    constructor
    · exact hz1
    · simp only
      split <;> omega
  · intro hgt hzgt req hreq
    simp only [List.mem_singleton] at hreq
    subst hreq
    unfold requestCovers
    simp only
    split <;> omega

/-- Witness for c2_single_capped_request at highestUsedZone = 5,
zone = 3. -/
theorem c2_witness :
    (1 : Nat) ≤ 3 ∧ (3 : Nat) ≤ 5 ∧
    ((∀ req ∈ get_all_zones_state_requests 5, req.2 ≤ 168) ∧
     ((5 : Nat) ≤ 168 → ∃ req ∈ get_all_zones_state_requests 5, requestCovers req 3) ∧
     ((168 : Nat) < 5 → 168 < 3 → ∀ req ∈ get_all_zones_state_requests 5, ¬ requestCovers req 3)) :=
  ⟨by decide, by decide, c2_single_capped_request 5 3 (by decide) (by decide)⟩

/-- C10: get_zone_state encodes the start zone as the single byte
startZone & 0xFF, so any start zone above 255 is sent as startZone mod
256; and on a 640-zone panel a changed-zones bitmap naming only zone 300
makes get_changed_zones_state issue the request (300, 1), whose start
zone 300 exceeds 255. -/
theorem c10_start_zone_truncated (startZone numZones : Nat)
    (h : 255 < startZone) :
    (get_zone_state_body startZone numZones).headD 0 = startZone % 256 ∧
    startZone % 256 ≠ startZone ∧
    changedZoneRequests 640 (List.replicate 37 0 ++ [8]) = [(300, 1)] := by
  refine ⟨rfl, ?_, by decide⟩
  have h2 : startZone % 256 < 256 := Nat.mod_lt _ (by omega)
  omega

/-- Witness for c10_start_zone_truncated at startZone = 300,
numZones = 1. -/
theorem c10_witness :
    (get_zone_state_body 300 1).headD 0 = 300 % 256 ∧
    300 % 256 ≠ 300 ∧
    changedZoneRequests 640 (List.replicate 37 0 ++ [8]) = [(300, 1)] :=
  c10_start_zone_truncated 300 1 (by decide)

/-- A part-armed area is untouched by one pass of the armed-state loop:
its state survives and no event is collected for it, whatever
areaStateWhenTrue, the bitmap and the iteration window are. -/
theorem saveAreasFrom_partarmed (w : Nat) :
    ∀ (count a0 flags : Nat) (states : Nat → Option Nat) (a : Nat),
    states a = some AREA_STATE_PARTARMED →
    (saveAreasFrom w a0 count flags states).1 a = some AREA_STATE_PARTARMED ∧
    a ∉ ((saveAreasFrom w a0 count flags states).2.map Prod.fst) := by
  intro count
  induction count with
  | zero =>
      intro a0 flags states a h
      exact ⟨h, by simp [saveAreasFrom]⟩
  | succ n ih =>
      intro a0 flags states a h
      by_cases hc : saveAreasCond (states a0) (saveAreasNewState w flags (states a0))
      · have hne : a ≠ a0 := by
          intro he
          exact hc.2.1 (he ▸ h)
        have hstates' :
            (fun m => if m = a0 then some (saveAreasNewState w flags (states a0))
              else states m) a = states a := by
          simp [hne]
        have := ih (a0 + 1) (flags / 2)
          (fun m => if m = a0 then some (saveAreasNewState w flags (states a0))
            else states m) a (by rw [hstates', h])
        simp only [saveAreasFrom, if_pos hc]
        refine ⟨this.1, ?_⟩
        simp only [List.map_cons, List.mem_cons]
        rintro (he | hmem)
        · exact hne he
        · exact this.2 hmem
      · have := ih (a0 + 1) (flags / 2) states a h
        simp only [saveAreasFrom, if_neg hc]
        exact this

/-- C3: for any area recorded part-armed (4), the armed-area-flag probe
(get_armed_area_state via saveAreasCurrentArmedState) leaves that area's
state at part-armed and fires no area event callback for it, whatever the
probe's bitmap is. -/
theorem c3_partarmed_preserved (numberOfAreas : Nat) (areaBitmap : List Nat)
    (states : Nat → Option Nat) (a : Nat)
    (h : states a = some AREA_STATE_PARTARMED) :
    (get_armed_area_state numberOfAreas areaBitmap states).1 a
        = some AREA_STATE_PARTARMED ∧
    a ∉ ((get_armed_area_state numberOfAreas areaBitmap states).2.map Prod.fst) :=
  saveAreasFrom_partarmed AREA_STATE_ARMED numberOfAreas 1
    (int_from_bytes_le areaBitmap) states a h

/-- Witness for c3_partarmed_preserved: two areas, both part-armed, bitmap
byte 3 (both bits set). -/
theorem c3_witness :
    (fun _ : Nat => some AREA_STATE_PARTARMED) 1 = some AREA_STATE_PARTARMED ∧
    ((get_armed_area_state 2 [3] (fun _ => some AREA_STATE_PARTARMED)).1 1
        = some AREA_STATE_PARTARMED ∧
     1 ∉ ((get_armed_area_state 2 [3] (fun _ => some AREA_STATE_PARTARMED)).2.map
            Prod.fst)) :=
  ⟨rfl, c3_partarmed_preserved 2 [3] (fun _ => some AREA_STATE_PARTARMED) 1 rfl⟩

/-- With areaStateWhenTrue = armed, the save condition holds exactly for
an area whose bit is clear and whose state is still unrecorded. -/
theorem saveAreasCond_armed_iff (flags : Nat) (st : Option Nat) :
    saveAreasCond st (saveAreasNewState AREA_STATE_ARMED flags st) ↔
      flags % 2 = 0 ∧ st = none := by
  unfold saveAreasCond saveAreasNewState
  unfold AREA_STATE_ARMED AREA_STATE_DISARMED AREA_STATE_PARTARMED
  rcases st with _ | s
  · by_cases hf : flags % 2 = 1
    · simp [hf]
    · simp [hf]
      omega
  · by_cases hf : flags % 2 = 1
    · simp [hf]
    · simp [hf]

theorem saveAreasNewState_armed_eq (flags : Nat) (st : Option Nat)
    (h0 : flags % 2 = 0) (hst : st = none) :
    saveAreasNewState AREA_STATE_ARMED flags st = AREA_STATE_DISARMED := by
  subst hst
  unfold saveAreasNewState
  rw [if_neg (by omega)]

theorem div_pow_shift (flags k : Nat) :
    flags / 2 / 2 ^ k = flags / 2 ^ (k + 1) := by
  rw [Nat.div_div_eq_div_mul]
  congr 1
  rw [pow_succ]
  ring

/-- Every event the armed-state pass collects names an area whose bit in
the (shifted) bitmap was clear and whose state was unrecorded, and
carries the disarmed state. -/
theorem saveAreasFrom_armed_mem :
    ∀ (count a0 flags : Nat) (states : Nat → Option Nat) (p : Nat × Nat),
    p ∈ (saveAreasFrom AREA_STATE_ARMED a0 count flags states).2 →
    p.2 = AREA_STATE_DISARMED ∧ states p.1 = none ∧ a0 ≤ p.1 ∧
      flags / 2 ^ (p.1 - a0) % 2 = 0 := by
  intro count
  induction count with
  | zero =>
      intro a0 flags states p hp
      simp [saveAreasFrom] at hp
  | succ n ih =>
      intro a0 flags states p hp
      by_cases hc : saveAreasCond (states a0)
          (saveAreasNewState AREA_STATE_ARMED flags (states a0))
      · obtain ⟨hf, hst⟩ := (saveAreasCond_armed_iff flags (states a0)).mp hc
        simp only [saveAreasFrom, if_pos hc, List.mem_cons] at hp
        rcases hp with hp | hp
        · subst hp
          refine ⟨saveAreasNewState_armed_eq flags (states a0) hf hst, hst,
            le_refl _, ?_⟩
          simpa using hf
        · have h := ih (a0 + 1) (flags / 2)
            (fun m => if m = a0 then
                some (saveAreasNewState AREA_STATE_ARMED flags (states a0))
              else states m) p hp
          have hne : p.1 ≠ a0 := by omega
          refine ⟨h.1, ?_, by omega, ?_⟩
          · have := h.2.1
            simpa [hne] using this
          · have hbit := h.2.2.2
            rw [div_pow_shift] at hbit
            have : p.1 - (a0 + 1) + 1 = p.1 - a0 := by omega
            rwa [this] at hbit
      · simp only [saveAreasFrom, if_neg hc] at hp
        have h := ih (a0 + 1) (flags / 2) states p hp
        refine ⟨h.1, h.2.1, by omega, ?_⟩
        have hbit := h.2.2.2
        rw [div_pow_shift] at hbit
        have : p.1 - (a0 + 1) + 1 = p.1 - a0 := by omega
        rwa [this] at hbit

/-- After the armed-state pass an area's state is either untouched or was
unrecorded and became disarmed. -/
theorem saveAreasFrom_armed_final :
    ∀ (count a0 flags : Nat) (states : Nat → Option Nat) (a : Nat),
    (saveAreasFrom AREA_STATE_ARMED a0 count flags states).1 a = states a ∨
    ((saveAreasFrom AREA_STATE_ARMED a0 count flags states).1 a
        = some AREA_STATE_DISARMED ∧ states a = none) := by
  intro count
  induction count with
  | zero =>
      intro a0 flags states a
      left
      simp [saveAreasFrom]
  | succ n ih =>
      intro a0 flags states a
      by_cases hc : saveAreasCond (states a0)
          (saveAreasNewState AREA_STATE_ARMED flags (states a0))
      · obtain ⟨hf, hst⟩ := (saveAreasCond_armed_iff flags (states a0)).mp hc
        simp only [saveAreasFrom, if_pos hc]
        have h := ih (a0 + 1) (flags / 2)
          (fun m => if m = a0 then
              some (saveAreasNewState AREA_STATE_ARMED flags (states a0))
            else states m) a
        by_cases ha : a = a0
        · subst ha
          rcases h with h | h
          · right
            refine ⟨?_, hst⟩
            rw [h]
            simp [saveAreasNewState_armed_eq flags (states a) hf hst]
          · exfalso
            have := h.2
            simp at this
        · rcases h with h | h
          · left
            rw [h]
            simp [ha]
          · right
            refine ⟨h.1, ?_⟩
            have := h.2
            simpa [ha] using this
      · simp only [saveAreasFrom, if_neg hc]
        exact ih (a0 + 1) (flags / 2) states a

/-- C9: the armed-area-flag probe only ever writes the disarmed state,
and only to an area whose bitmap bit is clear and whose state was still
unrecorded; in particular an area whose bit is set never has the armed
state stored and never has the area event callback fired by the probe. -/
theorem c9_probe_writes_only_disarmed (numberOfAreas : Nat)
    (areaBitmap : List Nat) (states : Nat → Option Nat) (a s : Nat) :
    ((a, s) ∈ (get_armed_area_state numberOfAreas areaBitmap states).2 →
      s = AREA_STATE_DISARMED ∧ states a = none ∧
      int_from_bytes_le areaBitmap / 2 ^ (a - 1) % 2 = 0) ∧
    ((get_armed_area_state numberOfAreas areaBitmap states).1 a = states a ∨
      ((get_armed_area_state numberOfAreas areaBitmap states).1 a
          = some AREA_STATE_DISARMED ∧ states a = none)) := by
  constructor
  · intro hmem
    have h := saveAreasFrom_armed_mem numberOfAreas 1
      (int_from_bytes_le areaBitmap) states (a, s) hmem
    exact ⟨h.1, h.2.1, h.2.2.2⟩
  · exact saveAreasFrom_armed_final numberOfAreas 1
      (int_from_bytes_le areaBitmap) states a

/-- Witness for c9_probe_writes_only_disarmed: two areas, empty bitmap,
no recorded states; area 1 is written disarmed. -/
theorem c9_witness :
    (((0 : Nat) = AREA_STATE_DISARMED ∧
        (fun _ : Nat => (none : Option Nat)) 1 = none ∧
        int_from_bytes_le [0] / 2 ^ (1 - 1) % 2 = 0) ∧
      ((get_armed_area_state 2 [0] (fun _ => none)).1 1
          = (fun _ : Nat => (none : Option Nat)) 1 ∨
        ((get_armed_area_state 2 [0] (fun _ => none)).1 1
            = some AREA_STATE_DISARMED ∧
          (fun _ : Nat => (none : Option Nat)) 1 = none))) :=
  ⟨(c9_probe_writes_only_disarmed 2 [0] (fun _ => none) 1 0).1 (by decide),
   (c9_probe_writes_only_disarmed 2 [0] (fun _ => none) 1 0).2⟩

/-- One pass of the association loop preserves the mirror invariant: each
iteration writes or erases the pair (z, a) in both directions at once. -/
theorem associateFrom_mirror (numberOfAreas z : Nat) :
    ∀ (count a0 flags : Nat) (t : Topology),
    Mirror numberOfAreas t →
    Mirror numberOfAreas (associateFrom z a0 count flags t) := by
  intro count
  induction count with
  | zero =>
      intro a0 flags t h
      exact h
  | succ n ih =>
      intro a0 flags t h
      simp only [associateFrom]
      apply ih
      intro a' z' h1 h2
      simp only
      by_cases hcase : z' = z ∧ a' = a0
      · rw [if_pos hcase, if_pos ⟨hcase.2, hcase.1⟩]
      · rw [if_neg hcase, if_neg (fun hx => hcase ⟨hx.2, hx.1⟩)]
        exact h a' z' h1 h2

/-- C7: associateZoneWithAreas keeps the zone-area membership a consistent
mirror — whenever the invariant holds before a call (in particular for the
empty topology a load starts from), it holds after: for every area number
in 1..numberOfAreas and every zone, the area is in the zone's area set iff
the zone is in the area's zone set. -/
theorem c7_mirror_invariant (numberOfAreas z : Nat) (areaBitmap : List Nat)
    (t : Topology) (h : Mirror numberOfAreas t) :
    Mirror numberOfAreas (associateZoneWithAreas numberOfAreas z areaBitmap t) :=
  associateFrom_mirror numberOfAreas z numberOfAreas 1
    (int_from_bytes_le areaBitmap) t h

/-- Witness for c7_mirror_invariant: associating zone 1 with both of two
areas starting from the empty topology. -/
theorem c7_witness :
    Mirror 2 emptyTopology ∧
    Mirror 2 (associateZoneWithAreas 2 1 [3] emptyTopology) :=
  ⟨fun _ _ _ _ => rfl,
   c7_mirror_invariant 2 1 [3] emptyTopology (fun _ _ _ _ => rfl)⟩

/-- C5 counterexample: zone 5 has zoneType 0 (unused, the on-demand
default), yet dispatching the unsolicited ZONEEVENT naming zone 5 fires
the zone event callback for it — the dispatcher has no zoneType check. -/
theorem c5_counterexample :
    initPanelState.zoneTypes 5 = 0 ∧
    (handle_event_message initPanelState [MSG_ZONEEVENT, 5, 1]).map
        (fun r => r.zoneCallbacks) = .ok [5] :=
  ⟨rfl, rfl⟩

/-- The get_zone_state reply loop never fires the zone event callback for
a zone whose zoneType is unused (0). -/
theorem zoneStateLoop_unused :
    ∀ (details : List Nat) (startZone : Nat) (st : PanelState) (z : Nat),
    st.zoneTypes z = 0 → z ∉ (zoneStateLoop startZone details st).2 := by
  intro details
  induction details with
  | nil =>
      intro s st z h
      simp [zoneStateLoop]
  | cons d rest ih =>
      intro s st z h
      by_cases hc : st.zoneTypes s ≠ 0 ∧ st.zoneStates s ≠ some d
      · simp only [zoneStateLoop, if_pos hc]
        intro hmem
        simp only [List.mem_cons] at hmem
        rcases hmem with he | hmem
        · exact hc.1 (he ▸ h)
        · exact ih (s + 1)
            { st with zoneStates := fun n => if n = s then some d else st.zoneStates n }
            z h hmem
      · simp only [zoneStateLoop, if_neg hc]
        exact ih (s + 1) st z h

/-- C5 (amended): get_zone_state skips unused zones and get_zone_details
fires the details callback only for a zone whose freshly assigned
zoneType is not 0, but the event dispatcher fires the zone event callback
for any zone a ZONEEVENT names, with no zoneType check. -/
theorem c5_unused_zone_reporting :
    (∀ (startZone : Nat) (details : List Nat) (st : PanelState) (z : Nat),
      st.zoneTypes z = 0 → z ∉ (zoneStateLoop startZone details st).2) ∧
    (∀ (areaBitmapSize zone_number : Nat) (details : List Nat)
        (st st' : PanelState) (cbs : List Nat),
      get_zone_details_process areaBitmapSize zone_number details st
          = .ok (some (st', cbs)) →
      details.headD 0 = 0 → cbs = []) ∧
    (∀ (st : PanelState) (zn zb : Nat),
      (handle_event_message st [MSG_ZONEEVENT, zn, zb]).map
          (fun r => r.zoneCallbacks) = .ok [zn]) := by
  refine ⟨fun s details st z h => zoneStateLoop_unused details s st z h, ?_, ?_⟩
  · intro abs zn details st st' cbs heq hz
    unfold get_zone_details_process at heq
    rw [hz] at heq
    split at heq
    · norm_num at heq
      split at heq
      · exact absurd heq (by simp)
      · simp only [Except.ok.injEq, Option.some.injEq, Prod.mk.injEq] at heq
        exact heq.2.symm
    · exact absurd heq (by simp)
  · intro st zn zb
    rfl

/-- Witness for c5_unused_zone_reporting: zone 1 unused with a one-byte
reply, a 34-byte details reply with zoneType 0 for zone 3, and a
ZONEEVENT naming zone 7. -/
theorem c5_witness :
    initPanelState.zoneTypes 1 = 0 ∧
    1 ∉ (zoneStateLoop 1 [7] initPanelState).2 ∧
    (List.replicate 34 0).headD 0 = 0 ∧
    ([] : List Nat) = [] ∧
    (handle_event_message initPanelState [MSG_ZONEEVENT, 7, 1]).map
        (fun r => r.zoneCallbacks) = .ok [7] :=
  ⟨rfl,
   c5_unused_zone_reporting.1 1 [7] initPanelState 1 rfl,
   rfl,
   c5_unused_zone_reporting.2.1 1 3 (List.replicate 34 0) initPanelState
     { initPanelState with
        zoneTypes := fun n => if n = 3 then 0 else initPanelState.zoneTypes n }
     [] rfl rfl,
   c5_unused_zone_reporting.2.2 initPanelState 7 1⟩

/-- C6 counterexample: an AREAEVENT whose state byte is 6 (outside 0..5)
makes Area.save_state index past its six-entry state_text list — the
dispatch raises IndexError instead of logging and ignoring the message
(message_event and the event loop catch only socket.timeout, so the
session dies). -/
theorem c6_counterexample :
    handle_event_message initPanelState [MSG_AREAEVENT, 1, 6]
      = .error "IndexError: area state_text" := rfl

/-- C6 (amended): unrecognised message-type bytes and unexpected
ZONEEVENT/LOGEVENT payload lengths are logged and otherwise ignored, but
an AREAEVENT state byte outside 0..5 raises an uncaught IndexError (as do
too-short AREAEVENT/OUTPUTEVENT/USEREVENT payloads and USEREVENT states
above 2), aborting the session. -/
theorem c6_dispatch_error_handling :
    (∀ (st : PanelState) (m : Nat) (rest : List Nat), 5 < m →
      handle_event_message st (m :: rest)
        = .ok ⟨st, [], [], .unknownMessageType⟩) ∧
    (∀ (st : PanelState) (rest : List Nat),
      rest.length ≠ 2 → rest.length ≠ 3 →
      handle_event_message st (MSG_ZONEEVENT :: rest)
        = .ok ⟨st, [], [], .unknownZoneEventLength⟩) ∧
    (∀ (st : PanelState) (rest : List Nat),
      rest.length ≠ 8 → rest.length ≠ 9 → rest.length ≠ 16 →
      handle_event_message st (MSG_LOGEVENT :: rest)
        = .ok ⟨st, [], [], .unknownLogEventLength⟩) ∧
    (∀ (st : PanelState) (a s : Nat) (tail : List Nat), 5 < s →
      handle_event_message st (MSG_AREAEVENT :: a :: s :: tail)
        = .error "IndexError: area state_text") := by
  refine ⟨?_, ?_, ?_, ?_⟩
  · intro st m rest hm
    have h0 : m ≠ MSG_DEBUG := by unfold MSG_DEBUG; omega
    have h1 : m ≠ MSG_ZONEEVENT := by unfold MSG_ZONEEVENT; omega
    have h2 : m ≠ MSG_AREAEVENT := by unfold MSG_AREAEVENT; omega
    have h3 : m ≠ MSG_OUTPUTEVENT := by unfold MSG_OUTPUTEVENT; omega
    have h4 : m ≠ MSG_USEREVENT := by unfold MSG_USEREVENT; omega
    have h5 : m ≠ MSG_LOGEVENT := by unfold MSG_LOGEVENT; omega
    simp [handle_event_message, h0, h1, h2, h3, h4, h5]
  · intro st rest h2 h3
    rcases rest with _ | ⟨a, _ | ⟨b, _ | ⟨c, _ | ⟨d, tl⟩⟩⟩⟩
    · rfl
    · rfl
    · exact absurd rfl h2
    · exact absurd rfl h3
    · rfl
  · intro st rest h8 h9 h16
    simp [handle_event_message, MSG_LOGEVENT, MSG_DEBUG, MSG_ZONEEVENT,
      MSG_AREAEVENT, MSG_OUTPUTEVENT, MSG_USEREVENT, h8, h9, h16]
  · intro st a s tail hs
    have h6 : ¬ s < 6 := by omega
    simp [handle_event_message, area_save_state, MSG_AREAEVENT, MSG_DEBUG,
      MSG_ZONEEVENT, h6]

/-- Witness for c6_dispatch_error_handling: message type 9, a 4-byte
ZONEEVENT payload, an empty LOGEVENT payload, and an AREAEVENT with state
byte 200. -/
theorem c6_witness :
    (5 : Nat) < 9 ∧
    handle_event_message initPanelState [9]
      = .ok ⟨initPanelState, [], [], .unknownMessageType⟩ ∧
    handle_event_message initPanelState (MSG_ZONEEVENT :: [1, 2, 3, 4])
      = .ok ⟨initPanelState, [], [], .unknownZoneEventLength⟩ ∧
    handle_event_message initPanelState (MSG_LOGEVENT :: [])
      = .ok ⟨initPanelState, [], [], .unknownLogEventLength⟩ ∧
    handle_event_message initPanelState (MSG_AREAEVENT :: 1 :: 200 :: [])
      = .error "IndexError: area state_text" :=
  ⟨by decide,
   c6_dispatch_error_handling.1 initPanelState 9 [] (by decide),
   c6_dispatch_error_handling.2.1 initPanelState [1, 2, 3, 4]
     (by decide) (by decide),
   c6_dispatch_error_handling.2.2.1 initPanelState []
     (by decide) (by decide) (by decide),
   c6_dispatch_error_handling.2.2.2 initPanelState 1 200 [] (by decide)⟩

/-- C1 counterexample: the panel's reply to command 2 with its CRC byte
corrupted (0 instead of the correct 231) makes sendcommand return a null
payload at once, even though the later retry attempts' scripts hold the
correct reply — recvresponse returns None on a CRC mismatch instead of
swallowing the frame, so the retry timer never runs.  With the correct
CRC byte the very same exchange returns the payload normally. -/
theorem c1_counterexample :
    crc8_func [116, 82, 6, 0, 2] = 231 ∧
    sendcommandModel 2 0 (-1)
      [[Incoming.frame [116, 82, 6, 0] [2, 0]],
       [Incoming.frame [116, 82, 6, 0] [2, 231]],
       [Incoming.frame [116, 82, 6, 0] [2, 231]]] = none ∧
    sendcommandModel 2 0 (-1)
      [[Incoming.frame [116, 82, 6, 0] [2, 231]]] = some [] := by
  exact ⟨by decide, by decide, by decide⟩

/-- C1 (amended): a response frame whose CRC byte is wrong is not
swallowed — recvProcessFrame yields hardNone, recvresponse returns None,
and sendcommand returns a null payload immediately, with no
retransmission; it is the socket timeout (not a CRC mismatch) that
retransmits, and a correct reply on a later attempt then returns its
payload normally. -/
theorem c1_crc_mismatch_returns_none (lastSeq lrs : Int)
    (t L s c cmd L2 s2 : Nat) (body pl : List Nat)
    (rest rest2 : List Incoming) (scripts scripts2 : List (List Incoming))
    (hlen : L - 4 ≤ body.length + 1)
    (hcrc : c ≠ crc8_func ([116, t, L, s] ++ body))
    (hs2 : (s2 : Int) = lastSeq)
    (hlen2 : L2 - 4 ≤ pl.length + 2) :
    recvProcessFrame lastSeq lrs [116, t, L, s] (body ++ [c]) = .hardNone ∧
    recvresponseModel lastSeq lrs
        (.frame [116, t, L, s] (body ++ [c]) :: rest) = (some none, lrs) ∧
    sendcommandModel cmd lastSeq lrs
        ((.frame [116, t, L, s] (body ++ [c]) :: rest) :: scripts) = none ∧
    sendcommandModel cmd lastSeq lrs
        ([.timeout] ::
          (.frame [116, 82, L2, s2]
              ((cmd :: pl) ++ [crc8_func ([116, 82, L2, s2] ++ (cmd :: pl))])
            :: rest2) :: scripts2) = some pl := by
  have hA : recvProcessFrame lastSeq lrs [116, t, L, s] (body ++ [c]) = .hardNone := by
    have hlen' : ¬ ((body ++ [c]).length < L - LENGTH_HEADER) := by
      simp only [List.length_append, List.length_cons, List.length_nil, LENGTH_HEADER]
      omega
    simp only [recvProcessFrame]
    rw [if_neg (by simp : ¬ ([116, t, L, s] : List Nat) = [43, 43, 43]),
        if_neg (by simp : ¬ ([116, t, L, s] : List Nat) = [43, 43, 43, 65]),
        if_neg (by simp : ¬ ([116, t, L, s] : List Nat).length = 0),
        if_neg (by simp [LENGTH_HEADER] : ¬ ([116, t, L, s] : List Nat).length < LENGTH_HEADER)]
    simp only [List.headD]
    rw [if_neg (by simp : ¬ ¬ (116 : Nat) = 116)]
    simp only [List.length_cons, List.length_nil, Nat.reduceAdd, Nat.reduceSub,
      List.getD_cons_succ, List.getD_cons_zero]
    rw [if_neg hlen']
    rw [List.dropLast_concat, List.getLast?_concat]
    simp only [Option.getD_some]
    rw [if_pos hcrc]
  have hB : recvresponseModel lastSeq lrs
      (.frame [116, t, L, s] (body ++ [c]) :: rest) = (some none, lrs) := by
    simp only [recvresponseModel, hA]
  have hGood : recvProcessFrame lastSeq lrs [116, 82, L2, s2]
      ((cmd :: pl) ++ [crc8_func ([116, 82, L2, s2] ++ (cmd :: pl))])
        = .accept (cmd :: pl) := by
    have hlen2' : ¬ (((cmd :: pl) ++ [crc8_func ([116, 82, L2, s2] ++ (cmd :: pl))]).length
        < L2 - LENGTH_HEADER) := by
      simp only [List.length_append, List.length_cons, List.length_nil, LENGTH_HEADER]
      omega
    generalize hgen : crc8_func ([116, 82, L2, s2] ++ (cmd :: pl)) = k
    rw [hgen] at hlen2'
    simp only [recvProcessFrame]
    rw [if_neg (by simp : ¬ ([116, 82, L2, s2] : List Nat) = [43, 43, 43]),
        if_neg (by simp : ¬ ([116, 82, L2, s2] : List Nat) = [43, 43, 43, 65]),
        if_neg (by simp : ¬ ([116, 82, L2, s2] : List Nat).length = 0),
        if_neg (by simp [LENGTH_HEADER] : ¬ ([116, 82, L2, s2] : List Nat).length < LENGTH_HEADER)]
    simp only [List.headD]
    rw [if_neg (by simp : ¬ ¬ (116 : Nat) = 116)]
    simp only [List.length_cons, List.length_nil, Nat.reduceAdd, Nat.reduceSub,
      List.getD_cons_succ, List.getD_cons_zero]
    rw [if_neg hlen2']
    rw [List.dropLast_concat, List.getLast?_concat]
    simp only [Option.getD_some]
    rw [if_neg (show ¬ k ≠ crc8_func ([116, 82, L2, s2] ++ (cmd :: pl)) by
          rw [hgen]; exact fun h => h rfl)]
    rw [if_neg (fun h => h.2 hs2)]
    rw [if_neg (by simp : ¬ ((82 : Nat) = 77 ∧ lrs ≠ -1 ∧ ((s2 : Nat) : Int) = lrs))]
    rw [if_neg (by decide : ¬ (82 : Nat) = 67)]
    simp
  have hGoodRecv : recvresponseModel lastSeq lrs
      (.frame [116, 82, L2, s2]
          ((cmd :: pl) ++ [crc8_func ([116, 82, L2, s2] ++ (cmd :: pl))])
        :: rest2) = (some (some (cmd :: pl)), lrs) := by
    simp only [recvresponseModel, hGood]
  refine ⟨hA, hB, ?_, ?_⟩
  · simp only [sendcommandModel, CMD_RETRIES, sendcommandAttempts,
      List.headD, hB]
  · have hT : recvresponseModel lastSeq lrs [Incoming.timeout] = (none, lrs) := rfl
    simp only [sendcommandModel, CMD_RETRIES, sendcommandAttempts,
      List.headD, List.tail, hT, hGoodRecv]
    simp


/-- Witness for c1_crc_mismatch_returns_none: command 2, sequence 0, a
one-byte reply body with CRC byte 0 in place of 231, and a correct
second reply after one timeout. -/
theorem c1_witness :
    ((6 : Nat) - 4 ≤ [2].length + 1 ∧
     (0 : Nat) ≠ crc8_func ([116, 82, 6, 0] ++ [2]) ∧
     (((0 : Nat) : Int) = 0) ∧
     (6 : Nat) - 4 ≤ ([] : List Nat).length + 2) ∧
    (recvProcessFrame 0 (-1) [116, 82, 6, 0] ([2] ++ [0]) = .hardNone ∧
     recvresponseModel 0 (-1)
        (.frame [116, 82, 6, 0] ([2] ++ [0]) :: []) = (some none, -1) ∧
     sendcommandModel 2 0 (-1)
        ((.frame [116, 82, 6, 0] ([2] ++ [0]) :: []) :: []) = none ∧
     sendcommandModel 2 0 (-1)
        ([.timeout] ::
          (.frame [116, 82, 6, 0]
              ((2 :: []) ++ [crc8_func ([116, 82, 6, 0] ++ (2 :: []))])
            :: []) :: []) = some []) :=
  ⟨⟨by decide, by decide, by decide, by decide⟩,
   c1_crc_mismatch_returns_none 0 (-1) 82 6 0 0 2 6 0 [2] [] [] [] [] []
     (by decide) (by decide) (by decide) (by decide)⟩

/-- C8 counterexample: bcdDecodeBytes of the single byte 0xF1 is "1" —
the low-nibble digit 1 is appended after the high nibble 15 exceeded 9,
so a nibble above 9 does not terminate decoding (the spec-modelled
takeWhile decoding gives "" here). -/
theorem c8_counterexample :
    bcdDecodeBytes [0xF1] = "1" ∧ bcdDecodeSpec [0xF1] = "" ∧
    bcdDecodeBytes [0xF1] ≠ bcdDecodeSpec [0xF1] := by
  refine ⟨by decide, by decide, by decide⟩

theorem renderDigits_foldl (l : List Nat) (r : String) :
    l.foldl (fun acc v => acc ++ toString v) r
      = r ++ l.foldl (fun acc v => acc ++ toString v) "" := by
  induction l generalizing r with
  | nil => simp [String.append_empty]
  | cons v tl ih =>
      simp only [List.foldl_cons]
      rw [ih (r ++ toString v), ih ("" ++ toString v), String.empty_append,
        String.append_assoc]

theorem filter_digits_foldl (l : List Nat) (r : String) :
    l.foldl (fun acc v => if v ≤ 9 then acc ++ toString v else acc) r
      = r ++ (l.filter (fun v => v ≤ 9)).foldl
          (fun acc v => acc ++ toString v) "" := by
  induction l generalizing r with
  | nil => simp [String.append_empty]
  | cons v tl ih =>
      simp only [List.foldl_cons, List.filter_cons]
      by_cases hv : v ≤ 9
      · simp only [hv, if_pos, decide_True, List.foldl_cons]
        rw [ih (r ++ toString v), renderDigits_foldl _ ("" ++ toString v),
          String.empty_append, String.append_assoc]
      · simp only [hv, if_neg, decide_False]
        exact ih r

theorem bcdDecodeBytes_nibbleFold (bcd : List Nat) :
    ∀ r : String,
    bcd.foldl
        (fun result c =>
          [c >>> 4, c &&& 0xF].foldl
            (fun acc v => if v ≤ 9 then acc ++ toString v else acc) result) r
      = (nibbleStream bcd).foldl
          (fun acc v => if v ≤ 9 then acc ++ toString v else acc) r := by
  induction bcd with
  | nil => intro r; rfl
  | cons c tl ih =>
      intro r
      simp only [List.foldl_cons, nibbleStream]
      exact ih _

/-- C8 (amended): BCD decoding walks each byte's high nibble then low
nibble, but a nibble above 9 is skipped rather than terminating the
sequence — the result is exactly the digits of all nibbles at most 9, in
stream order; the spec's example [0x12, 0x34, 0xFF] = "1234" does hold
(both 0xFF nibbles are merely skipped at the end). -/
theorem c8_bcd_skips_high_nibbles :
    (∀ bcd, bcdDecodeBytes bcd = bcdDecodeFilter bcd) ∧
    bcdDecodeBytes [0x12, 0x34, 0xFF] = "1234" := by
  constructor
  · intro bcd
    unfold bcdDecodeBytes bcdDecodeFilter
    rw [bcdDecodeBytes_nibbleFold, filter_digits_foldl, String.empty_append]
  · decide

end Texecom
